import Mathlib

/-
Shallow embedding of the Last.fm collaborative-filtering notebook
(`last-fm-cf-B.ipynb`).  The notebook is a linear pipeline over two
tab-separated tables:

  * listening events `df_data` with columns (user, artist, plays), and
  * user profiles `df_user` with columns (user, gender, country).

The pipeline filters the profiles to female users in the United Kingdom,
inner-joins the events on the user key, aggregates plays per (user, artist),
keeps only artists whose global total plays exceed 200000, pivots the result
into an artist-by-user matrix, computes pairwise cosine distances over that
matrix with scikit-learn, and forms weighted-average predictions with the
function `predict`.

Tables are embedded as lists of records (pandas rows, in order); play counts
are embedded as integers (the TSV holds int64 counts) and the floating-point
matrix arithmetic of the similarity and prediction steps is embedded over the
reals.
-/

namespace LastFm

/-- A row of the listening-events table `df_data`
(columns kept by `usecols`: user, artist, plays). -/
structure EventRow where
  user   : String
  artist : String
  plays  : ℤ
deriving DecidableEq

/-- A row of the user-profile table `df_user`
(columns kept by `usecols`: user, gender, country). -/
structure ProfileRow where
  user    : String
  gender  : String
  country : String
deriving DecidableEq

/-! ### Sorting helper

pandas sorts group keys (`groupby` with its default `sort=True`) and pivot
labels.  We model that with a structurally recursive insertion sort so that
all relational definitions stay kernel-executable.  No claim depends on the
ordering itself. -/

/-- Insert `a` into `l` before the first element `b` with `le a b`. -/
def insertSorted (le : α → α → Bool) (a : α) : List α → List α
  | [] => [a]
  | b :: l => if le a b then a :: b :: l else b :: insertSorted le a l

/-- Insertion sort by the Boolean comparator `le`. -/
def sortBy (le : α → α → Bool) (l : List α) : List α :=
  l.foldr (insertSorted le) []

theorem insertSorted_perm (le : α → α → Bool) (a : α) (l : List α) :
    List.Perm (insertSorted le a l) (a :: l) := by
  induction l with
  | nil => exact List.Perm.refl _
  | cons b t ih =>
      rw [insertSorted]
      by_cases h : le a b = true
      · rw [if_pos h]
      · rw [if_neg h]
        exact (ih.cons b).trans (List.Perm.swap a b t)

theorem sortBy_perm (le : α → α → Bool) (l : List α) :
    List.Perm (sortBy le l) l := by
  induction l with
  | nil => exact List.Perm.refl _
  | cons a t ih => exact (insertSorted_perm le a (sortBy le t)).trans (ih.cons a)

theorem mem_sortBy {le : α → α → Bool} {a : α} {l : List α} :
    a ∈ sortBy le l ↔ a ∈ l :=
  (sortBy_perm le l).mem_iff

theorem nodup_sortBy (le : α → α → Bool) {l : List α} (h : l.Nodup) :
    (sortBy le l).Nodup :=
  (sortBy_perm le l).symm.nodup h

/-- Lexicographic comparison of character lists by code point. -/
def charListLe : List Char → List Char → Bool
  | [], _ => true
  | _ :: _, [] => false
  | a :: as, b :: bs =>
      if a.toNat < b.toNat then true
      else if b.toNat < a.toNat then false
      else charListLe as bs

/-- Lexicographic string comparison (the order pandas sorts labels by). -/
def strLe (a b : String) : Bool := charListLe a.data b.data

/-! ### Demographic filter and join -/

/-- Embeds `df_user_UK`, the filter keeping the profile rows whose country
equals United Kingdom.  The subsequent drop of the country column removes a
column, not a row, so rows are kept whole here. -/
def df_user_UK (df_user : List ProfileRow) : List ProfileRow :=
  df_user.filter (fun p => p.country == "United Kingdom")

/-- Embeds `df_user_UK_female`, the filter keeping the rows of `df_user_UK`
whose gender equals f (again the dropped gender column does not affect which
rows survive). -/
def df_user_UK_female (df_user : List ProfileRow) : List ProfileRow :=
  (df_user_UK df_user).filter (fun p => p.gender == "f")

/-- Embeds the inner merge of `df_data` with `df_user_UK_female` on the user
key: every event row is paired with every filtered profile row sharing its
user key.  The right table contributes only the user column (gender and
country were dropped), so each output row is the event row itself, once per
matching profile row, in left-table order. -/
def merged (df_data : List EventRow) (df_user : List ProfileRow) : List EventRow :=
  df_data.flatMap (fun e =>
    ((df_user_UK_female df_user).filter (fun p => p.user == e.user)).map
      (fun _ => e))

/-- Lexicographic comparator on (user, artist) keys, mirroring the sorted
group keys of the groupby on user and artist. -/
def keyLe (a b : String × String) : Bool :=
  if a.1 == b.1 then strLe a.2 b.2 else strLe a.1 b.1

/-- The distinct (user, artist) keys of a table, in sorted order. -/
def groupKeys (l : List EventRow) : List (String × String) :=
  sortBy keyLe (l.map (fun e => (e.user, e.artist))).dedup

/-- Total plays of the rows of `l` carrying the (user, artist) key `k`. -/
def keySum (l : List EventRow) (k : String × String) : ℤ :=
  ((l.filter (fun e => e.user == k.1 && e.artist == k.2)).map
    (fun e => e.plays)).sum

/-- Embeds the groupby-sum aggregation `df.groupby([user, artist],
as_index=False).sum()`: one row per distinct (user, artist) key, whose plays
value is the sum of the plays of the rows in that group. -/
def groupedDf (l : List EventRow) : List EventRow :=
  (groupKeys l).map (fun k => ⟨k.1, k.2, keySum l k⟩)

/-! ### Top-artist restriction -/

/-- One entry of `df_artist`: total plays of artist `a` over the FULL
listening-events table (the groupby of `df_data` by artist summing the
plays column). -/
def artistTotal (df_data : List EventRow) (a : String) : ℤ :=
  ((df_data.filter (fun e => e.artist == a)).map (fun e => e.plays)).sum

/-- Embeds `top_artist`, the list of the artist column of `df_top_artist`,
which keeps the rows of `df_artist` with total_plays > 200000; the
descending sort by total plays only reorders the list and does not change
membership. -/
def top_artist (df_data : List EventRow) : List String :=
  ((df_data.map (fun e => e.artist)).dedup).filter
    (fun a => decide (200000 < artistTotal df_data a))

/-- Embeds the restriction `df = df[df.artist.isin(top_artist)]`, applied to
the grouped table. -/
def workingDf (df_data : List EventRow) (df_user : List ProfileRow) :
    List EventRow :=
  (groupedDf (merged df_data df_user)).filter
    (fun e => (top_artist df_data).contains e.artist)

/-! ### Pivot -/

/-- Row labels of `matrix = df.pivot(index=artist, columns=user,
values=plays)`: the distinct artists of `df`, sorted (pandas sorts the
pivot index). -/
def rowLabels (df : List EventRow) : List String :=
  sortBy strLe (df.map (fun e => e.artist)).dedup

/-- Column labels of `matrix`: the distinct users of `df`, sorted. -/
def colLabels (df : List EventRow) : List String :=
  sortBy strLe (df.map (fun e => e.user)).dedup

/-- Entry (artist `a`, user `u`) of `matrix` after `.fillna(0)`: the plays
of the row of `df` carrying that key when one exists (pivot requires the
(index, columns) keys of `df` to be unique), otherwise the filled 0. -/
def pivotEntry (df : List EventRow) (a u : String) : ℤ :=
  match df.find? (fun e => e.artist == a && e.user == u) with
  | some e => e.plays
  | none => 0

/-! ### Similarity matrices

The sparse matrix holds floating-point play counts; the matrix arithmetic of
the similarity and prediction steps is embedded over the reals, with matrices
indexed by their pandas row/column labels. -/

/-- The pivot matrix entries as reals (after `csr_matrix(matrix)`). -/
noncomputable def matrixR (df : List EventRow) (a u : String) : ℝ :=
  (pivotEntry df a u : ℝ)

/-- The transposed matrix `matrix_sparse.T` (user-by-artist). -/
noncomputable def matrixT (df : List EventRow) (u a : String) : ℝ :=
  matrixR df a u

/-- Dot product of two label-indexed vectors over the index list `xs`. -/
noncomputable def dotL (xs : List String) (f g : String → ℝ) : ℝ :=
  (xs.map (fun x => f x * g x)).sum

/-- Euclidean norm of a label-indexed vector over `xs`. -/
noncomputable def normL (xs : List String) (f : String → ℝ) : ℝ :=
  Real.sqrt (dotL xs f f)

/-- The cosine similarity the spec describes (stated from the spec for
comparison with the code): the cosine of the angle between the two vectors,
their dot product divided by the product of their norms. -/
noncomputable def cosineSim (xs : List String) (f g : String → ℝ) : ℝ :=
  dotL xs f g / (normL xs f * normL xs g)

/-- One entry of `pairwise_distances(X, metric=cosine)`: the scikit-learn
cosine DISTANCE between two rows, documented as
`1 - <u, v> / (‖u‖ * ‖v‖)`, that is `1 -` the cosine similarity. -/
noncomputable def pairwiseCosine (xs : List String) (f g : String → ℝ) : ℝ :=
  1 - dotL xs f g / (normL xs f * normL xs g)

/-- Embeds `item_similarity = pairwise_distances(matrix_sparse,
metric=cosine)`: entry (a, b) compares the rows of the pivot matrix for
artists `a` and `b`, which are vectors indexed by the user columns. -/
noncomputable def item_similarity (df_data : List EventRow)
    (df_user : List ProfileRow) : String → String → ℝ :=
  fun a b =>
    pairwiseCosine (colLabels (workingDf df_data df_user))
      (matrixR (workingDf df_data df_user) a)
      (matrixR (workingDf df_data df_user) b)

/-- Embeds `user_similarity = pairwise_distances(matrix_sparse.T,
metric=cosine)`: entry (u, v) compares the columns of the pivot matrix for
users `u` and `v`, which are vectors indexed by the artist rows. -/
noncomputable def user_similarity (df_data : List EventRow)
    (df_user : List ProfileRow) : String → String → ℝ :=
  fun u v =>
    pairwiseCosine (rowLabels (workingDf df_data df_user))
      (matrixT (workingDf df_data df_user) u)
      (matrixT (workingDf df_data df_user) v)

/-! ### Prediction -/

/-- Row mean `matrix.mean(axis=1)` of a label-indexed matrix whose column
labels are `cols` (for a scipy sparse matrix this is a column vector of the
row sums divided by the number of columns). -/
noncomputable def meanRow (cols : List String) (M : String → String → ℝ)
    (a : String) : ℝ :=
  (cols.map (M a)).sum / cols.length

/-- Entry (a, i) of `matrix.dot(similarity)`. -/
noncomputable def matMulEntry (ix : List String) (M S : String → String → ℝ)
    (a i : String) : ℝ :=
  (ix.map (fun j => M a j * S j i)).sum

/-- Entry i of `np.abs(similarity).sum(axis=1)`. -/
noncomputable def absRowSum (ix : List String) (S : String → String → ℝ)
    (i : String) : ℝ :=
  (ix.map (fun j => |S i j|)).sum

/-- Entry (a, i) of `similarity.dot(matrix - mean_user_rating)` for the
user-based branch, where the inner index ranges over the square dimension of
the similarity matrix (= the row labels of `matrix`). -/
noncomputable def diffDotEntry (rows cols : List String)
    (M S : String → String → ℝ) (a i : String) : ℝ :=
  (rows.map (fun b => S a b * (M b i - meanRow cols M b))).sum

/-- The notebook function `predict(matrix, similarity, type)`.  `rows` and
`cols` are the row and column labels of `matrix`; `similarity` is square on
`rows` for the user-based branch and on `cols` for the item-based branch.
A `type` other than the strings user and item leaves the local variable `pred`
unassigned, so the `return pred` raises UnboundLocalError instead of
returning a value; that fallibility is embedded as `Option`, with `none` for
the failing call. -/
noncomputable def predict (ptype : String) (rows cols : List String)
    (matrix similarity : String → String → ℝ) :
    Option (String → String → ℝ) :=
  if ptype = "user" then
    some (fun a i =>
      meanRow cols matrix a +
        diffDotEntry rows cols matrix similarity a i /
          absRowSum rows similarity a)
  else if ptype = "item" then
    some (fun a i =>
      matMulEntry cols matrix similarity a i / absRowSum cols similarity i)
  else none

/-- Embeds `item_prediction = predict(matrix_sparse.T, item_similarity,
type=item)`: the matrix argument is user-by-artist, so its row labels are
the users and its column labels the artists of the pivoted matrix. -/
noncomputable def item_prediction (df_data : List EventRow)
    (df_user : List ProfileRow) : Option (String → String → ℝ) :=
  predict "item" (colLabels (workingDf df_data df_user))
    (rowLabels (workingDf df_data df_user))
    (matrixT (workingDf df_data df_user))
    (item_similarity df_data df_user)

/-- Embeds `user_prediction = predict(matrix_sparse.T, user_similarity,
type=user)`. -/
noncomputable def user_prediction (df_data : List EventRow)
    (df_user : List ProfileRow) : Option (String → String → ℝ) :=
  predict "user" (colLabels (workingDf df_data df_user))
    (rowLabels (workingDf df_data df_user))
    (matrixT (workingDf df_data df_user))
    (user_similarity df_data df_user)

/-- All derived artifacts of one run of the pipeline, as a function of the
contents of the two input tables. -/
noncomputable def pipelineArtifacts (df_data : List EventRow)
    (df_user : List ProfileRow) :=
  (df_user_UK_female df_user,
   merged df_data df_user,
   groupedDf (merged df_data df_user),
   top_artist df_data,
   workingDf df_data df_user,
   pivotEntry (workingDf df_data df_user),
   item_similarity df_data df_user,
   user_similarity df_data df_user,
   item_prediction df_data df_user,
   user_prediction df_data df_user)

/-! ### Helper lemmas -/

theorem mem_merged {df_data : List EventRow} {df_user : List ProfileRow}
    {e : EventRow} :
    e ∈ merged df_data df_user ↔
      e ∈ df_data ∧ ∃ p ∈ df_user_UK_female df_user, p.user = e.user := by
  simp only [merged, List.mem_flatMap, List.mem_map, List.mem_filter]
  constructor
  · rintro ⟨x, hx, p, ⟨hp, hpu⟩, rfl⟩
    exact ⟨hx, p, hp, by simpa using hpu⟩
  · rintro ⟨he, p, hp, hpu⟩
    exact ⟨e, he, p, ⟨hp, by simpa using hpu⟩, rfl⟩

theorem exists_of_mem_groupedDf {l : List EventRow} {r : EventRow}
    (h : r ∈ groupedDf l) :
    ∃ e ∈ l, e.user = r.user ∧ e.artist = r.artist := by
  rcases List.mem_map.1 h with ⟨k, hk, rfl⟩
  have hk2 : k ∈ l.map (fun e => (e.user, e.artist)) :=
    List.mem_dedup.1 (mem_sortBy.1 hk)
  rcases List.mem_map.1 hk2 with ⟨e, he, hke⟩
  exact ⟨e, he, by simp [← hke], by simp [← hke]⟩

theorem mem_top_artist {df_data : List EventRow} {a : String} :
    a ∈ top_artist df_data ↔
      a ∈ df_data.map (fun e => e.artist) ∧
        200000 < artistTotal df_data a := by
  simp [top_artist, List.mem_filter, List.mem_dedup]

/-! ### Claim theorems -/

/-- C4: a row of the profile table survives the demographic filter if and
only if its country field equals United Kingdom and its gender field equals
f; no other profile row survives. -/
theorem df_user_UK_female_mem (df_user : List ProfileRow) (p : ProfileRow) :
    p ∈ df_user_UK_female df_user ↔
      p ∈ df_user ∧ p.country = "United Kingdom" ∧ p.gender = "f" := by
  simp only [df_user_UK_female, df_user_UK, List.mem_filter, beq_iff_eq]
  tauto

/-- C6: the inner merge keeps exactly the listening events whose user occurs
in the filtered demographic subset, and the groupby-sum aggregation leaves
pairwise-distinct (user, artist) keys, each row carrying the sum of the
plays of the merged rows with its key. -/
theorem merged_grouped_spec (df_data : List EventRow)
    (df_user : List ProfileRow) :
    (∀ e : EventRow,
        e ∈ merged df_data df_user ↔
          e ∈ df_data ∧ ∃ p ∈ df_user_UK_female df_user, p.user = e.user) ∧
    ((groupedDf (merged df_data df_user)).map
        (fun r => (r.user, r.artist))).Nodup ∧
    (∀ r ∈ groupedDf (merged df_data df_user),
        r.plays = keySum (merged df_data df_user) (r.user, r.artist)) := by
  refine ⟨fun e => mem_merged, ?_, ?_⟩
  · have h2 : (groupedDf (merged df_data df_user)).map
        (fun r => (r.user, r.artist)) = groupKeys (merged df_data df_user) := by
      rw [groupedDf, List.map_map]
      have hid : ((fun r : EventRow => (r.user, r.artist)) ∘
          fun k : String × String =>
            (⟨k.1, k.2, keySum (merged df_data df_user) k⟩ : EventRow)) = id :=
        rfl
      rw [hid, List.map_id]
    rw [h2]
    exact nodup_sortBy _ (List.nodup_dedup _)
  · intro r hr
    rcases List.mem_map.1 hr with ⟨k, hk, rfl⟩
    rfl

theorem merged_grouped_spec_witness :
    (⟨"u", "a", 7⟩ : EventRow).plays =
      keySum (merged ([⟨"u", "a", 3⟩, ⟨"u", "a", 4⟩] : List EventRow)
        ([⟨"u", "f", "United Kingdom"⟩] : List ProfileRow)) ("u", "a") :=
  (merged_grouped_spec [⟨"u", "a", 3⟩, ⟨"u", "a", 4⟩]
    [⟨"u", "f", "United Kingdom"⟩]).2.2 ⟨"u", "a", 7⟩ (by decide)

theorem mem_workingDf {df_data : List EventRow} {df_user : List ProfileRow}
    {r : EventRow} :
    r ∈ workingDf df_data df_user ↔
      r ∈ groupedDf (merged df_data df_user) ∧
        200000 < artistTotal df_data r.artist := by
  rw [workingDf, List.mem_filter]
  constructor
  · rintro ⟨hg, hc⟩
    have hmem : r.artist ∈ top_artist df_data := by simpa using hc
    exact ⟨hg, (mem_top_artist.1 hmem).2⟩
  · rintro ⟨hg, hlt⟩
    refine ⟨hg, ?_⟩
    rcases exists_of_mem_groupedDf hg with ⟨e, he, _, hea⟩
    have hed : e ∈ df_data := (mem_merged.1 he).1
    have ha : r.artist ∈ df_data.map (fun e => e.artist) :=
      List.mem_map.2 ⟨e, hed, hea⟩
    simpa using mem_top_artist.2 ⟨ha, hlt⟩

/-- C5: after the restriction to the most-played artists a row remains in
the working table if and only if it was in the aggregated table and the
total plays of its artist over the full listening-events table strictly
exceed 200000. -/
theorem workingDf_mem (df_data : List EventRow) (df_user : List ProfileRow)
    (r : EventRow) :
    r ∈ workingDf df_data df_user ↔
      r ∈ groupedDf (merged df_data df_user) ∧
        200000 < artistTotal df_data r.artist :=
  mem_workingDf

/-- C7: the pivoted matrix has pairwise-distinct artist row labels and
pairwise-distinct user column labels, so every (artist, user) pair
addresses at most one entry; every later artifact is defined from the
matrix without modifying it, so the invariant persists through the run. -/
theorem matrix_labels_nodup (df_data : List EventRow)
    (df_user : List ProfileRow) :
    (rowLabels (workingDf df_data df_user)).Nodup ∧
    (colLabels (workingDf df_data df_user)).Nodup :=
  ⟨nodup_sortBy _ (List.nodup_dedup _), nodup_sortBy _ (List.nodup_dedup _)⟩

/-- C9: predict returns a value exactly for the type arguments user and
item; any other type argument leaves pred unassigned and the call fails
instead of returning a prediction. -/
theorem predict_returns_iff (ptype : String) (rows cols : List String)
    (M S : String → String → ℝ) :
    (predict ptype rows cols M S).isSome = true ↔
      ptype = "user" ∨ ptype = "item" := by
  rw [predict]
  by_cases h1 : ptype = "user"
  · simp [h1]
  · by_cases h2 : ptype = "item" <;> simp [h1, h2]

/-- C10: membership in the top-artist set compares the total plays summed
over the FULL listening-events table with 200000, independently of the
demographic subset; an artist whose global total is at most 200000
contributes no row to the working table, whatever its plays within the
subset. -/
theorem top_artist_uses_global_total (df_data : List EventRow)
    (df_user : List ProfileRow) (a : String) :
    (a ∈ top_artist df_data ↔
        a ∈ df_data.map (fun e => e.artist) ∧
          200000 < artistTotal df_data a) ∧
    (artistTotal df_data a ≤ 200000 →
      ∀ r ∈ workingDf df_data df_user, r.artist ≠ a) := by
  refine ⟨mem_top_artist, fun hle r hr hra => ?_⟩
  have hm := mem_workingDf.1 hr
  rw [hra] at hm
  exact absurd hm.2 (not_lt.2 hle)

theorem top_artist_uses_global_total_witness :
    artistTotal ([⟨"u", "x", 150000⟩] : List EventRow) "x" ≤ 200000 ∧
    200000 < keySum
        (merged ([⟨"u", "x", 150000⟩] : List EventRow)
          ([⟨"u", "f", "United Kingdom"⟩, ⟨"u", "f", "United Kingdom"⟩] :
            List ProfileRow)) ("u", "x") ∧
    ∀ r ∈ workingDf ([⟨"u", "x", 150000⟩] : List EventRow)
        ([⟨"u", "f", "United Kingdom"⟩, ⟨"u", "f", "United Kingdom"⟩] :
          List ProfileRow), r.artist ≠ "x" :=
  ⟨by decide, by decide,
   (top_artist_uses_global_total [⟨"u", "x", 150000⟩]
     [⟨"u", "f", "United Kingdom"⟩, ⟨"u", "f", "United Kingdom"⟩] "x").2
     (by decide)⟩

/-- C2, as stated, is false: the pivot uses the artists as row labels and
the users as column labels, not the other way round.  On a table with users
u1, u2 and single artist a1, the user u1 is not a row label, while the
artist a1 is, and u1 is a column label. -/
theorem pivot_rows_are_artists_counterexample :
    "u1" ∈ ([⟨"u1", "a1", 3⟩, ⟨"u2", "a1", 4⟩] : List EventRow).map
        (fun e => e.user) ∧
    "u1" ∉ rowLabels ([⟨"u1", "a1", 3⟩, ⟨"u2", "a1", 4⟩] : List EventRow) ∧
    "a1" ∈ rowLabels ([⟨"u1", "a1", 3⟩, ⟨"u2", "a1", 4⟩] : List EventRow) ∧
    "u1" ∈ colLabels ([⟨"u1", "a1", 3⟩, ⟨"u2", "a1", 4⟩] : List EventRow) := by
  decide

/-- C2 (amended): the pivot step turns the table into a dense artist-by-user
matrix, with one row per distinct artist and one column per distinct user;
provided the (user, artist) keys of the table are unique (as the earlier
groupby guarantees, and as pivot demands), the entry at (artist a, user u)
is the plays of the row of the table with that key, and the filled 0 when no
such row exists. -/
theorem pivot_matrix_spec (df : List EventRow)
    (hnd : (df.map (fun e => (e.user, e.artist))).Nodup) :
    (∀ a, a ∈ rowLabels df ↔ a ∈ df.map (fun e => e.artist)) ∧
    (∀ u, u ∈ colLabels df ↔ u ∈ df.map (fun e => e.user)) ∧
    (∀ r ∈ df, pivotEntry df r.artist r.user = r.plays) ∧
    (∀ a u, (∀ r ∈ df, ¬(r.artist = a ∧ r.user = u)) →
      pivotEntry df a u = 0) := by
  refine ⟨fun a => by rw [rowLabels, mem_sortBy, List.mem_dedup],
    fun u => by rw [colLabels, mem_sortBy, List.mem_dedup], ?_, ?_⟩
  · intro r hr
    cases hfind : df.find? (fun e => e.artist == r.artist && e.user == r.user)
      with
    | none =>
        exfalso
        have hno := List.find?_eq_none.1 hfind r hr
        simp at hno
    | some e =>
        have hmem := List.mem_of_find?_eq_some hfind
        have hprop := List.find?_some hfind
        simp only [Bool.and_eq_true, beq_iff_eq] at hprop
        have her : e = r :=
          List.inj_on_of_nodup_map hnd hmem hr
            (by simp [hprop.1, hprop.2])
        rw [pivotEntry, hfind, her]
  · intro a u hnone
    cases hfind : df.find? (fun e => e.artist == a && e.user == u) with
    | none => rw [pivotEntry, hfind]
    | some e =>
        exfalso
        have hmem := List.mem_of_find?_eq_some hfind
        have hprop := List.find?_some hfind
        simp only [Bool.and_eq_true, beq_iff_eq] at hprop
        exact hnone e hmem ⟨hprop.1, hprop.2⟩

theorem pivot_matrix_spec_witness :
    pivotEntry ([⟨"u1", "a1", 3⟩, ⟨"u2", "a1", 4⟩] : List EventRow)
        "a1" "u1" = 3 ∧
    pivotEntry ([⟨"u1", "a1", 3⟩, ⟨"u2", "a1", 4⟩] : List EventRow)
        "a2" "u1" = 0 :=
  ⟨(pivot_matrix_spec [⟨"u1", "a1", 3⟩, ⟨"u2", "a1", 4⟩]
      (by decide)).2.2.1 ⟨"u1", "a1", 3⟩ (by decide),
   (pivot_matrix_spec [⟨"u1", "a1", 3⟩, ⟨"u2", "a1", 4⟩]
      (by decide)).2.2.2 "a2" "u1" (by decide)⟩

/-- C3: the item-based prediction is the similarity-weighted average the
claim states: for every user u and artist i it is the sum over artists j of
the user-by-artist matrix entry (u, j) times item_similarity (j, i), divided
by the sum over artists j of the absolute values of item_similarity (i, j). -/
theorem item_prediction_formula (df_data : List EventRow)
    (df_user : List ProfileRow) :
    item_prediction df_data df_user =
      some (fun u i =>
        ((rowLabels (workingDf df_data df_user)).map
            (fun j => matrixT (workingDf df_data df_user) u j *
              item_similarity df_data df_user j i)).sum /
        ((rowLabels (workingDf df_data df_user)).map
            (fun j => |item_similarity df_data df_user i j|)).sum) := by
  rw [item_prediction, predict, if_neg (by decide), if_pos rfl]
  rfl

/-- C8: the pipeline is deterministic: runs on identical contents of the two
input tables produce identical derived artifacts, and predict applied to
equal matrix and similarity arguments returns equal results. -/
theorem pipeline_deterministic :
    (∀ (d1 d2 : List EventRow) (u1 u2 : List ProfileRow),
        d1 = d2 → u1 = u2 →
          pipelineArtifacts d1 u1 = pipelineArtifacts d2 u2) ∧
    (∀ (t : String) (rows cols : List String)
        (M1 M2 S1 S2 : String → String → ℝ),
        M1 = M2 → S1 = S2 →
          predict t rows cols M1 S1 = predict t rows cols M2 S2) := by
  constructor
  · rintro d _ u _ rfl rfl
    rfl
  · rintro t rows cols M _ S _ rfl rfl
    rfl

theorem pipeline_deterministic_witness :
    pipelineArtifacts [⟨"u", "a", 1⟩] [⟨"u", "f", "United Kingdom"⟩] =
      pipelineArtifacts [⟨"u", "a", 1⟩] [⟨"u", "f", "United Kingdom"⟩] ∧
    predict "item" ["u"] ["a"] (fun _ _ => 1) (fun _ _ => 1) =
      predict "item" ["u"] ["a"] (fun _ _ => 1) (fun _ _ => 1) :=
  ⟨pipeline_deterministic.1 _ _ _ _ rfl rfl,
   pipeline_deterministic.2 "item" _ _ _ _ _ _ rfl rfl⟩

/-- C1 (code bug): the notebook text says this step computes cosine
similarity, but `pairwise_distances` with the cosine metric returns the
cosine DISTANCE, 1 minus the cosine similarity.  On a dataset whose working
table has two identical artist rows (artists a and b, both with 201000 plays
by the single user u, both above the 200000 threshold), the entry (a, b) of
item_similarity evaluates to 0, although the cosine similarity of the two
row vectors — the cosine of the angle between them — is 1. -/
theorem item_similarity_is_distance_not_cosine :
    item_similarity ([⟨"u", "a", 201000⟩, ⟨"u", "b", 201000⟩] : List EventRow)
        ([⟨"u", "f", "United Kingdom"⟩] : List ProfileRow) "a" "b" = 0 ∧
    cosineSim
      (colLabels (workingDf
        ([⟨"u", "a", 201000⟩, ⟨"u", "b", 201000⟩] : List EventRow)
        ([⟨"u", "f", "United Kingdom"⟩] : List ProfileRow)))
      (matrixR (workingDf
        ([⟨"u", "a", 201000⟩, ⟨"u", "b", 201000⟩] : List EventRow)
        ([⟨"u", "f", "United Kingdom"⟩] : List ProfileRow)) "a")
      (matrixR (workingDf
        ([⟨"u", "a", 201000⟩, ⟨"u", "b", 201000⟩] : List EventRow)
        ([⟨"u", "f", "United Kingdom"⟩] : List ProfileRow)) "b") = 1 := by
  have hcol : colLabels (workingDf
      ([⟨"u", "a", 201000⟩, ⟨"u", "b", 201000⟩] : List EventRow)
      ([⟨"u", "f", "United Kingdom"⟩] : List ProfileRow)) = ["u"] := by
    decide
  have ha : pivotEntry (workingDf
      ([⟨"u", "a", 201000⟩, ⟨"u", "b", 201000⟩] : List EventRow)
      ([⟨"u", "f", "United Kingdom"⟩] : List ProfileRow)) "a" "u" = 201000 := by
    decide
  have hb : pivotEntry (workingDf
      ([⟨"u", "a", 201000⟩, ⟨"u", "b", 201000⟩] : List EventRow)
      ([⟨"u", "f", "United Kingdom"⟩] : List ProfileRow)) "b" "u" = 201000 := by
    decide
  have hfa : matrixR (workingDf
      ([⟨"u", "a", 201000⟩, ⟨"u", "b", 201000⟩] : List EventRow)
      ([⟨"u", "f", "United Kingdom"⟩] : List ProfileRow)) "a" "u"
      = (201000 : ℝ) := by
    rw [matrixR, ha]
    norm_num
  have hfb : matrixR (workingDf
      ([⟨"u", "a", 201000⟩, ⟨"u", "b", 201000⟩] : List EventRow)
      ([⟨"u", "f", "United Kingdom"⟩] : List ProfileRow)) "b" "u"
      = (201000 : ℝ) := by
    rw [matrixR, hb]
    norm_num
  have hdot : ∀ f g : String → ℝ, f "u" = 201000 → g "u" = 201000 →
      dotL ["u"] f g = 201000 * 201000 := by
    intro f g hf hg
    simp [dotL, hf, hg]
  have hsq : Real.sqrt ((201000 : ℝ) * 201000) = 201000 :=
    Real.sqrt_mul_self (by norm_num)
  constructor
  · simp only [item_similarity, pairwiseCosine, normL, hcol]
    rw [hdot _ _ hfa hfb, hdot _ _ hfa hfa, hdot _ _ hfb hfb, hsq]
    norm_num
  · simp only [cosineSim, normL, hcol]
    rw [hdot _ _ hfa hfb, hdot _ _ hfa hfa, hdot _ _ hfb hfb, hsq]
    norm_num

end LastFm
